import Mathlib

/-!
# Verification of the wfc-server connection broker (`src/main.go`)

A shallow embedding of the front/back broker in `main.go`.  The broker's
side effects (mutex operations, busy-counter operations, table mutation,
outbound RPC calls, socket writes/closes, `os.Exit`) are recorded as
explicit event traces; the nondeterministic environment (socket read
results, RPC call results, socket write results) is passed in as input.
Machine integers (`uint64`) are modelled as `Nat` reduced modulo `2 ^ 64`
exactly where the Go code can overflow.
-/

set_option autoImplicit false

namespace WfcMain

/-- `2 ^ 64`, the modulus of Go's `uint64` arithmetic. -/
def UINT64_MOD : Nat := 2 ^ 64

/-- Result of an outbound RPC call on the front, as `handleConnection`
distinguishes them: `rpc.ErrShutdown`, or any other non-nil error.
A successful call is `Option.none` at use sites. -/
inductive RpcErr
  | shutdown
  | other
  deriving DecidableEq, Repr

/-- One iteration's worth of environment input for the read loop in
`handleConnection` (main.go:354-381): a read that returns an error, or a
successful read returning `data` (the `n` bytes placed in the 1024-byte
buffer) together with the result of the `HandlePacket` RPC that would be
issued for it (unused when `data` is empty, since no RPC is issued). -/
inductive ReadStep
  | fail
  | ok (data : List Nat) (rpcRes : Option RpcErr)
  deriving DecidableEq, Repr

/-- Observable effects of the relay task `handleConnection`
(main.go:333-398). -/
inductive Event
  | lock
  | unlock
  | busyAdd
  | busyDone
  | tableInsert (tag : String) (index : Nat)
  | tableDelete (tag : String) (index : Nat)
  | rpcNewConnection (tag : String) (index : Nat) (addr : String)
  | rpcHandlePacket (tag : String) (index : Nat) (addr : String) (data : List Nat)
  | rpcCloseConnection (tag : String) (index : Nat)
  | logError
  | connClose (conn : Nat)
  | exitProcess (code : Nat)
  deriving DecidableEq, Repr

/-- How the read loop of `handleConnection` ended: `broke` via `break`
(read error, or a non-`ErrShutdown` RPC error), `exited` via `os.Exit(1)`
(`ErrShutdown` from `HandlePacket`, main.go:376-378), or `starved` when
the supplied input is exhausted with the loop still blocked in `Read`. -/
inductive LoopExit
  | broke
  | exited
  | starved
  deriving DecidableEq, Repr

/-- The `for` read loop of `handleConnection` (main.go:354-381).
Per iteration: a failed read breaks; a zero-length read continues
(main.go:361-363); otherwise the front locks the mutex, increments the
busy counter, unlocks, issues `RPCPacket.HandlePacket` with the bytes
read, and decrements the busy counter (main.go:365-372).  A non-nil RPC
error is logged; `rpc.ErrShutdown` calls `os.Exit(1)` (main.go:374-380),
any other error breaks the loop. -/
def relayLoop (tag : String) (index : Nat) (addr : String) :
    List ReadStep → List Event × LoopExit
  | [] => ([], .starved)
  | .fail :: _ => ([], .broke)
  | .ok [] _ :: rest => relayLoop tag index addr rest
  | .ok (b :: bs) rpcRes :: rest =>
    let es : List Event := [.lock, .busyAdd, .unlock,
        .rpcHandlePacket tag index addr (b :: bs), .busyDone]
    match rpcRes with
    | none =>
      let r := relayLoop tag index addr rest
      (es ++ r.1, r.2)
    | some .shutdown => (es ++ [.logError, .exitProcess 1], .exited)
    | some .other => (es ++ [.logError], .broke)

/-- The relay task `handleConnection` (main.go:333-398), as the event
trace it produces.  `conn` identifies the accepted client socket;
`newConnRes` is the result of the initial `RPCPacket.NewConnection` call,
`steps` feeds the read loop, and `closeRes` is the result of the final
`RPCPacket.CloseConnection` call (when reached).

Phases, exactly as in the source: (1) under the mutex, increment busy and
insert `(tag, index) ↦ conn` into the table, then call `NewConnection`
and decrement busy; on error, log, delete the entry under the mutex and
return (the deferred `conn.Close()` runs, main.go:345-352).  (2) the read
loop.  (3) under the mutex, increment busy and delete the entry, call
`CloseConnection`, decrement busy; a non-nil error is logged and
`rpc.ErrShutdown` exits the process (main.go:383-397).  `os.Exit` does
not run deferred calls, so the deferred `conn.Close()` (main.go:334) is
recorded only on paths that return normally. -/
def handleConnection (tag : String) (index : Nat) (addr : String) (conn : Nat)
    (newConnRes : Option RpcErr) (steps : List ReadStep) (closeRes : Option RpcErr) :
    List Event :=
  let openEvents : List Event := [.lock, .busyAdd, .tableInsert tag index, .unlock,
      .rpcNewConnection tag index addr, .busyDone]
  match newConnRes with
  | some _ =>
    openEvents ++ [.logError, .lock, .tableDelete tag index, .unlock, .connClose conn]
  | none =>
    let r := relayLoop tag index addr steps
    match r.2 with
    | .exited => openEvents ++ r.1
    | .starved => openEvents ++ r.1
    | .broke =>
      let closeEvents : List Event := [.lock, .busyAdd, .tableDelete tag index, .unlock,
          .rpcCloseConnection tag index, .busyDone]
      let tail : List Event :=
        match closeRes with
        | none => [.connClose conn]
        | some .shutdown => [.logError, .exitProcess 1]
        | some .other => [.logError, .connClose conn]
      openEvents ++ r.1 ++ closeEvents ++ tail

/-! ## The front connection table and the RPC handlers served to the back -/

/-- The front's connection table `connections` (main.go:187): a Go map
`tag → (index → socket)`, modelled as an association list; sockets are
identified by `Nat`. -/
abbrev ConnTable := List (String × List (Nat × Nat))

/-- Association-list lookup, modelling Go map indexing (first match). -/
def assocGet {κ α : Type} [DecidableEq κ] : List (κ × α) → κ → Option α
  | [], _ => none
  | (k, v) :: rest, key => if k = key then some v else assocGet rest key

/-- The nested lookup `connections[args.Server][args.Index]`
(main.go:407, 421).  Indexing a Go map with an absent key yields the zero
value (a nil inner map), in which the index lookup misses; no panic is
possible. -/
def mapGet2 (t : ConnTable) (tag : String) (index : Nat) : Option Nat :=
  match assocGet t tag with
  | none => none
  | some inner => assocGet inner index

/-- Association-list deletion, modelling Go's `delete`. -/
def assocDel {κ α : Type} [DecidableEq κ] (m : List (κ × α)) (key : κ) : List (κ × α) :=
  m.filter (fun p => p.1 != key)

/-- `delete(connections[args.Server], args.Index)` (main.go:426): the
inner map for `tag` loses `index`; other tags are untouched. -/
def mapDel2 (t : ConnTable) (tag : String) (index : Nat) : ConnTable :=
  t.map (fun p => if p.1 = tag then (p.1, assocDel p.2 index) else p)

/-- Errors returned by the front-served RPC handlers: `ErrBadIndex`
(main.go:400) or an I/O error propagated from the socket. -/
inductive GoError
  | badIndex
  | ioErr (code : Nat)
  deriving DecidableEq, Repr

/-- Observable effects of the front-served RPC handlers. -/
inductive FEvent
  | lock
  | unlock
  | sockWrite (conn : Nat) (data : List Nat)
  | sockClose (conn : Nat)
  deriving DecidableEq, Repr

/-- `RPCFrontendPacket.SendPacket` (main.go:403-414): lock the mutex
(unlock deferred), look up `connections[args.Server][args.Index]`; on
miss return `ErrBadIndex`; on hit write the bytes to the socket and
return exactly the write's error.  `writeRes` supplies the environment's
outcome for the socket write. -/
def RPCFrontendPacket.SendPacket (table : ConnTable)
    (writeRes : Nat → List Nat → Option GoError)
    (tag : String) (index : Nat) (data : List Nat) :
    Option GoError × ConnTable × List FEvent :=
  match mapGet2 table tag index with
  | none => (some .badIndex, table, [.lock, .unlock])
  | some c => (writeRes c data, table, [.lock, .sockWrite c data, .unlock])

/-- `RPCFrontendPacket.CloseConnection` (main.go:417-428): lock the mutex
(unlock deferred), look up; on miss return `ErrBadIndex`; on hit delete
the entry and return `conn.Close()`'s result.  `closeRes` supplies the
environment's outcome for the socket close. -/
def RPCFrontendPacket.CloseConnection (table : ConnTable)
    (closeRes : Nat → Option GoError)
    (tag : String) (index : Nat) :
    Option GoError × ConnTable × List FEvent :=
  match mapGet2 table tag index with
  | none => (some .badIndex, table, [.lock, .unlock])
  | some c => (closeRes c, mapDel2 table tag index, [.lock, .sockClose c, .unlock])

/-- A row of the `servers` slice in `frontendMain` (main.go:169-173). -/
structure serverInfo where
  rpcName : String
  protocol : String
  port : Nat
  deriving DecidableEq, Repr

/-- The `servers` slice (main.go:212-217). -/
def servers : List serverInfo :=
  [⟨"serverbrowser", "tcp", 28910⟩, ⟨"gpcm", "tcp", 29900⟩,
   ⟨"gpsp", "tcp", 29901⟩, ⟨"gamestats", "tcp", 29920⟩]

/-- The four protocol tags for which `frontendMain` initialises an inner
map in `connections` (main.go:219-222). -/
def frontendTags : List String := servers.map serverInfo.rpcName

/-! ## Listener startup and the accept loop -/

/-- Outcome of a `net.Listen` call. -/
inductive BindResult
  | ok
  | err
  deriving DecidableEq, Repr

/-- Outcome of one `l.Accept()` call in an accept loop. -/
inductive AcceptStep
  | fail
  | conn
  deriving DecidableEq, Repr

/-- Observable effects of listener startup and accept loops. -/
inductive FLEvent
  | logError
  | logNotice
  | spawnHandler (index : Nat)
  | ret
  | exitProcess (code : Nat)
  deriving DecidableEq, Repr

/-- The bind step of `backendMain` (main.go:64-68): a failure to listen
on `localhost:29999` logs and calls `os.Exit(1)`. -/
def backendMainListen : BindResult → List FLEvent
  | .err => [.logError, .exitProcess 1]
  | .ok => [.logNotice]

/-- The bind step of `startFrontendServer` (main.go:233-237): a failure
to listen on `localhost:29998` logs and calls `os.Exit(1)`. -/
def startFrontendServerListen : BindResult → List FLEvent
  | .err => [.logError, .exitProcess 1]
  | .ok => [.logNotice]

/-- The accept loop of `frontendListen` (main.go:312-329).  `count` is
the `uint64` connection counter (main.go:310); a failed accept logs and
continues, a successful accept increments `count` (wrapping at `2 ^ 64`)
and spawns `handleConnection` with the new count as the index.  (The
keep-alive step only logs a warning and is not recorded.) -/
def acceptLoop (count : Nat) : List AcceptStep → List FLEvent
  | [] => []
  | .fail :: rest => .logError :: acceptLoop count rest
  | .conn :: rest =>
    .spawnHandler ((count + 1) % UINT64_MOD) ::
      acceptLoop ((count + 1) % UINT64_MOD) rest

/-- `frontendListen` (main.go:299-330): a bind failure logs an error and
returns from the goroutine — it does not exit the process
(main.go:301-305); on success it logs a notice and runs the accept loop
starting from `count = 0`. -/
def frontendListen (bind : BindResult) (accepts : List AcceptStep) : List FLEvent :=
  match bind with
  | .err => [.logError, .ret]
  | .ok => .logNotice :: acceptLoop 0 accepts

/-- The connection indices handed to spawned relay tasks, in order. -/
def assignedIndices (es : List FLEvent) : List Nat :=
  es.filterMap fun e =>
    match e with
    | .spawnHandler i => some i
    | _ => none

/-- `k`-fold wrapping increment of the `uint64` counter, starting at `c`:
the value of `count` after `k` further successful accepts. -/
def iterInc (c : Nat) : Nat → Nat
  | 0 => c
  | k + 1 => iterInc ((c + 1) % UINT64_MOD) k

/-- Number of successful accepts in a list of accept outcomes. -/
def numConns : List AcceptStep → Nat
  | [] => 0
  | .conn :: rest => numConns rest + 1
  | .fail :: rest => numConns rest

/-! ## The ShutdownBackend handler -/

/-- Observable effects of `RPCFrontendPacket.ShutdownBackend`. -/
inductive SEvent
  | lock
  | unlock
  | busyWait
  | rpcShutdown
  | logError
  | closeHandle
  | spawnWaitForBackend
  deriving DecidableEq, Repr

/-- The error-message substring tested at main.go:448. -/
def forciblyClosedMsg : String :=
  "An existing connection was forcibly closed by the remote host."

/-- Whether `sub` is a prefix of `s`, on character lists. -/
def hasPre : List Char → List Char → Bool
  | [], _ => true
  | _ :: _, [] => false
  | a :: as, b :: bs => a == b && hasPre as bs

/-- Whether `sub` occurs as a contiguous substring. -/
def occursIn (sub : List Char) : List Char → Bool
  | [] => hasPre sub []
  | c :: cs => hasPre sub (c :: cs) || occursIn sub cs

/-- Go's `strings.Contains(s, sub)`. -/
def strContains (s sub : String) : Bool := occursIn sub.data s.data

/-- `RPCFrontendPacket.ShutdownBackend` (main.go:441-460): lock the mutex
(never unlocked here), wait for the busy counter to drain, call
`RPCPacket.Shutdown` on the back — an error whose message contains the
"forcibly closed" substring is swallowed, any other error is logged —
then close the outbound RPC handle (logging a close error), start
`waitForBackend` in the background, and return nil.  `shutdownRes` and
`closeRes` carry the error messages (if any) of the two fallible steps. -/
def RPCFrontendPacket.ShutdownBackend (shutdownRes closeRes : Option String) :
    Option GoError × List SEvent :=
  let logShutdown : List SEvent :=
    match shutdownRes with
    | some msg => if strContains msg forciblyClosedMsg then [] else [.logError]
    | none => []
  let logClose : List SEvent :=
    match closeRes with
    | some _ => [.logError]
    | none => []
  (none, [SEvent.lock, SEvent.busyWait, SEvent.rpcShutdown] ++ logShutdown
      ++ [SEvent.closeHandle] ++ logClose ++ [SEvent.spawnWaitForBackend])

/-! ## Observation helpers -/

/-- Recognises the close event of socket `c` in a relay trace. -/
def isConnClose (c : Nat) : Event → Bool
  | .connClose c2 => c2 == c
  | _ => false

/-- Recognises the close event of socket `c` in a front-handler trace. -/
def isSockClose (c : Nat) : FEvent → Bool
  | .sockClose c2 => c2 == c
  | _ => false

/-- The number of bytes a read step claims to have read. -/
def stepLen : ReadStep → Nat
  | .fail => 0
  | .ok d _ => d.length

/-- Whether a read step successfully read exactly the bytes `d`. -/
def stepHasData (d : List Nat) : ReadStep → Bool
  | .ok d2 _ => d2 == d
  | .fail => false

/-! ## Lemmas about the relay read loop -/

/-- The read loop never issues a `CloseConnection` RPC. -/
lemma relayLoop_no_closeRPC (tag : String) (index : Nat) (addr : String)
    (steps : List ReadStep) (t : String) (i : Nat) :
    Event.rpcCloseConnection t i ∉ (relayLoop tag index addr steps).1 := by
  induction steps with
  | nil => simp [relayLoop]
  | cons s rest ih =>
    rcases s with _ | ⟨d, r⟩
    · simp [relayLoop]
    · rcases d with _ | ⟨b, bs⟩
      · simpa [relayLoop] using ih
      · rcases r with _ | e
        · simp [relayLoop, ih]
        · rcases e <;> simp [relayLoop]

/-- The read loop never closes any socket. -/
lemma relayLoop_no_connClose (tag : String) (index : Nat) (addr : String)
    (steps : List ReadStep) (c : Nat) :
    Event.connClose c ∉ (relayLoop tag index addr steps).1 := by
  induction steps with
  | nil => simp [relayLoop]
  | cons s rest ih =>
    rcases s with _ | ⟨d, r⟩
    · simp [relayLoop]
    · rcases d with _ | ⟨b, bs⟩
      · simpa [relayLoop] using ih
      · rcases r with _ | e
        · simp [relayLoop, ih]
        · rcases e <;> simp [relayLoop]

/-- Filtering the read loop's trace for closes of socket `c` yields nothing. -/
lemma relayLoop_filter_connClose (tag : String) (index : Nat) (addr : String)
    (steps : List ReadStep) (c : Nat) :
    (relayLoop tag index addr steps).1.filter (isConnClose c) = [] := by
  induction steps with
  | nil => simp [relayLoop]
  | cons s rest ih =>
    rcases s with _ | ⟨d, r⟩
    · simp [relayLoop]
    · rcases d with _ | ⟨b, bs⟩
      · simpa [relayLoop] using ih
      · rcases r with _ | e
        · simp [relayLoop, List.filter_append, isConnClose, ih]
        · rcases e <;> simp [relayLoop, List.filter_append, isConnClose]

/-- If the read loop ended in `os.Exit(1)`, its trace records the exit. -/
lemma relayLoop_exited_mem (tag : String) (index : Nat) (addr : String)
    (steps : List ReadStep)
    (h : (relayLoop tag index addr steps).2 = .exited) :
    Event.exitProcess 1 ∈ (relayLoop tag index addr steps).1 := by
  induction steps with
  | nil => simp [relayLoop] at h
  | cons s rest ih =>
    rcases s with _ | ⟨d, r⟩
    · simp [relayLoop] at h
    · rcases d with _ | ⟨b, bs⟩
      · simp only [relayLoop] at h ⊢
        exact ih h
      · rcases r with _ | e
        · simp only [relayLoop] at h ⊢
          simp only [List.mem_append]
          exact Or.inr (ih h)
        · rcases e <;> simp [relayLoop] at h ⊢

/-! ## Claim C1 -/

/-- Claim C1, counterexample: the claim says every outbound RPC call
(`NewConnection` included) returning `rpc.ErrShutdown` makes the front
exit with failure.  On the code, a failed `NewConnection` — even with
`ErrShutdown` — is only logged; the entry is deleted, the socket closed,
and no `os.Exit` happens (main.go:345-352 has no `ErrShutdown` check). -/
theorem wfc_claim1_counterexample :
    handleConnection "gpcm" 1 "a" 7 (some RpcErr.shutdown) [] none =
      [Event.lock, Event.busyAdd, Event.tableInsert "gpcm" 1, Event.unlock,
       Event.rpcNewConnection "gpcm" 1 "a", Event.busyDone, Event.logError,
       Event.lock, Event.tableDelete "gpcm" 1, Event.unlock, Event.connClose 7] ∧
    Event.exitProcess 1 ∉ handleConnection "gpcm" 1 "a" 7 (some RpcErr.shutdown) [] none := by
  decide

/-- Claim C1 (amended): `rpc.ErrShutdown` from `HandlePacket` or from
`CloseConnection` makes the relay task call `os.Exit(1)`; a failed
`NewConnection` (`ErrShutdown` included) never exits — the front logs the
error, removes the table entry and closes the socket. -/
theorem wfc_claim1_prop (tag : String) (index : Nat) (addr : String) (conn : Nat)
    (steps : List ReadStep) (closeRes : Option RpcErr) :
    ((relayLoop tag index addr steps).2 = .exited →
      Event.exitProcess 1 ∈ handleConnection tag index addr conn none steps closeRes) ∧
    ((relayLoop tag index addr steps).2 = .broke → closeRes = some .shutdown →
      Event.exitProcess 1 ∈ handleConnection tag index addr conn none steps closeRes) ∧
    (∀ (e : RpcErr) (c : Nat),
      Event.exitProcess c ∉ handleConnection tag index addr conn (some e) steps closeRes) := by
  refine ⟨?_, ?_, ?_⟩
  · intro h
    simp only [handleConnection, h, List.mem_append]
    exact Or.inr (relayLoop_exited_mem tag index addr steps h)
  · intro h hc
    subst hc
    simp [handleConnection, h]
  · intro e c
    simp [handleConnection]

/-- Claim C1, witness: with a read error ending the loop and
`CloseConnection` failing with `ErrShutdown`, the trace records the exit. -/
theorem wfc_claim1_witness :
    Event.exitProcess 1 ∈
      handleConnection "gpcm" 1 "a" 7 none [ReadStep.fail] (some RpcErr.shutdown) :=
  (wfc_claim1_prop "gpcm" 1 "a" 7 [ReadStep.fail] (some RpcErr.shutdown)).2.1 rfl rfl

/-! ## Claim C3 -/

/-- Claim C3, counterexample: the claim says each socket is closed
exactly once regardless of which path removes it.  When the back requests
`RPCFrontendPacket.CloseConnection` for a live connection, the handler
closes the socket (main.go:427); the relay task's next read then fails
and it runs its close phase, whose deferred `conn.Close()` (main.go:334)
closes the same socket a second time: two closes in total. -/
theorem wfc_claim3_counterexample :
    (((RPCFrontendPacket.CloseConnection [("gpcm", [(1, 7)])] (fun _ => none)
          "gpcm" 1).2.2).filter (isSockClose 7)).length
      + ((handleConnection "gpcm" 1 "a" 7 none [ReadStep.fail] none).filter
          (isConnClose 7)).length = 2 := by
  decide

/-- Claim C3 (amended): the socket is closed exactly once when removal is
triggered by a failed `NewConnection` or by the relay task ending without
the process exiting; the front-served `CloseConnection` handler closes
the socket once more on its own (so a back-requested close of a live
connection yields two closes in total), and a relay task ending in
`os.Exit(1)` skips its deferred close entirely. -/
theorem wfc_claim3_prop (tag : String) (index : Nat) (addr : String) (conn : Nat)
    (steps : List ReadStep) (closeRes : Option RpcErr) :
    (∀ e : RpcErr,
      ((handleConnection tag index addr conn (some e) steps closeRes).filter
          (isConnClose conn)).length = 1) ∧
    ((relayLoop tag index addr steps).2 = .broke → closeRes ≠ some .shutdown →
      ((handleConnection tag index addr conn none steps closeRes).filter
          (isConnClose conn)).length = 1) ∧
    ((relayLoop tag index addr steps).2 = .exited →
      ((handleConnection tag index addr conn none steps closeRes).filter
          (isConnClose conn)).length = 0) ∧
    (∀ (table : ConnTable) (crF : Nat → Option GoError),
      mapGet2 table tag index = some conn →
      (((RPCFrontendPacket.CloseConnection table crF tag index).2.2).filter
          (isSockClose conn)).length = 1) := by
  refine ⟨?_, ?_, ?_, ?_⟩
  · intro e
    simp [handleConnection, isConnClose]
  · intro h hne
    rcases closeRes with _ | e2
    · simp [handleConnection, h, List.filter_append, isConnClose,
        relayLoop_filter_connClose]
    · rcases e2
      · exact absurd rfl hne
      · simp [handleConnection, h, List.filter_append, isConnClose,
          relayLoop_filter_connClose]
  · intro h
    simp [handleConnection, h, List.filter_append, isConnClose,
      relayLoop_filter_connClose]
  · intro table crF hget
    simp [RPCFrontendPacket.CloseConnection, hget, isSockClose]

/-- Claim C3, witness: a relay task whose `NewConnection` fails closes
the socket exactly once. -/
theorem wfc_claim3_witness :
    ((handleConnection "gpcm" 1 "a" 7 (some RpcErr.other) [] none).filter
        (isConnClose 7)).length = 1 :=
  (wfc_claim3_prop "gpcm" 1 "a" 7 [] none).1 RpcErr.other

/-! ## Claim C5 -/

/-- Claim C5, counterexample: the claim says `CloseConnection` is issued
iff `NewConnection` returned without error.  Here `NewConnection`
succeeds, but the first `HandlePacket` returns `rpc.ErrShutdown`: the
relay task calls `os.Exit(1)` (main.go:376-378) and `CloseConnection` is
never issued, refuting the forward direction of the iff. -/
theorem wfc_claim5_counterexample :
    Event.rpcNewConnection "gpcm" 1 "a" ∈
        handleConnection "gpcm" 1 "a" 7 none [ReadStep.ok [2] (some RpcErr.shutdown)] none ∧
      Event.rpcCloseConnection "gpcm" 1 ∉
        handleConnection "gpcm" 1 "a" 7 none [ReadStep.ok [2] (some RpcErr.shutdown)] none := by
  decide

/-- Claim C5 (amended): `CloseConnection` is issued to the back iff the
initial `NewConnection` succeeded and the relay loop ended without the
process exiting on `ErrShutdown`; when `NewConnection` fails the front
removes the entry and closes the socket without issuing
`CloseConnection`. -/
theorem wfc_claim5_prop (tag : String) (index : Nat) (addr : String) (conn : Nat)
    (steps : List ReadStep) (closeRes : Option RpcErr) :
    (∀ e : RpcErr,
      Event.rpcCloseConnection tag index ∉
          handleConnection tag index addr conn (some e) steps closeRes ∧
        Event.tableDelete tag index ∈
          handleConnection tag index addr conn (some e) steps closeRes ∧
        Event.connClose conn ∈
          handleConnection tag index addr conn (some e) steps closeRes) ∧
    ((relayLoop tag index addr steps).2 = .broke →
      Event.rpcCloseConnection tag index ∈
        handleConnection tag index addr conn none steps closeRes) ∧
    ((relayLoop tag index addr steps).2 = .exited →
      Event.rpcCloseConnection tag index ∉
        handleConnection tag index addr conn none steps closeRes) := by
  refine ⟨?_, ?_, ?_⟩
  · intro e
    refine ⟨?_, ?_, ?_⟩ <;> simp [handleConnection]
  · intro h
    simp [handleConnection, h]
  · intro h
    simp only [handleConnection, h]
    intro hmem
    rcases List.mem_append.mp hmem with h1 | h2
    · simp at h1
    · exact relayLoop_no_closeRPC tag index addr steps tag index h2

/-- Claim C5, witness: a relay task whose read loop ends with a read
error issues `CloseConnection` to the back. -/
theorem wfc_claim5_witness :
    Event.rpcCloseConnection "gpcm" 1 ∈
      handleConnection "gpcm" 1 "a" 7 none [ReadStep.fail] none :=
  (wfc_claim5_prop "gpcm" 1 "a" 7 [ReadStep.fail] none).2.1 rfl

/-! ## Claims C6, C7, C10: the front-served table handlers -/

/-- Claim C6 (confirmed): `SendPacket(tag, index, bytes)` returns
`ErrBadIndex` when the table has no entry for `(tag, index)`, and
otherwise writes the bytes to the socket and returns exactly the write's
error; both the lookup and the write happen between the lock and the
unlock of the mutex. -/
theorem wfc_claim6_prop (table : ConnTable) (writeRes : Nat → List Nat → Option GoError)
    (tag : String) (index : Nat) (data : List Nat) :
    (mapGet2 table tag index = none →
      RPCFrontendPacket.SendPacket table writeRes tag index data =
        (some GoError.badIndex, table, [FEvent.lock, FEvent.unlock])) ∧
    (∀ c, mapGet2 table tag index = some c →
      RPCFrontendPacket.SendPacket table writeRes tag index data =
        (writeRes c data, table, [FEvent.lock, FEvent.sockWrite c data, FEvent.unlock])) := by
  constructor
  · intro h
    simp [RPCFrontendPacket.SendPacket, h]
  · intro c h
    simp [RPCFrontendPacket.SendPacket, h]

/-- Claim C6, witness: on a table holding `(gpcm, 1) ↦ socket 7`, the
bytes are written to socket 7 and the write's (nil) error is returned. -/
theorem wfc_claim6_witness :
    RPCFrontendPacket.SendPacket [("gpcm", [(1, 7)])] (fun _ _ => none) "gpcm" 1 [3, 4] =
      (none, [("gpcm", [(1, 7)])], [FEvent.lock, FEvent.sockWrite 7 [3, 4], FEvent.unlock]) :=
  (wfc_claim6_prop [("gpcm", [(1, 7)])] (fun _ _ => none) "gpcm" 1 [3, 4]).2 7 (by decide)

/-- Claim C7 (confirmed): `SendPacket` on a `(tag, index)` pair absent
from the table returns `ErrBadIndex`, leaves the table unchanged, and
performs no socket write and no socket close. -/
theorem wfc_claim7_prop (table : ConnTable) (writeRes : Nat → List Nat → Option GoError)
    (tag : String) (index : Nat) (data : List Nat)
    (h : mapGet2 table tag index = none) :
    RPCFrontendPacket.SendPacket table writeRes tag index data =
      (some GoError.badIndex, table, [FEvent.lock, FEvent.unlock]) := by
  simp [RPCFrontendPacket.SendPacket, h]

/-- Claim C7, witness: the spec's own scenario — `SendPacket(gamestats,
99999)` for an index never assigned returns `ErrBadIndex` and touches
nothing. -/
theorem wfc_claim7_witness :
    RPCFrontendPacket.SendPacket [("gamestats", [(1, 7)])] (fun _ _ => none)
        "gamestats" 99999 [1] =
      (some GoError.badIndex, [("gamestats", [(1, 7)])], [FEvent.lock, FEvent.unlock]) :=
  wfc_claim7_prop [("gamestats", [(1, 7)])] (fun _ _ => none) "gamestats" 99999 [1]
    (by decide)

/-- A key that heads no entry of an association list looks up to `none`. -/
lemma assocGet_eq_none {α : Type} (m : List (String × α)) (key : String)
    (h : ∀ p ∈ m, p.1 ≠ key) : assocGet m key = none := by
  induction m with
  | nil => rfl
  | cons p rest ih =>
    simp only [assocGet]
    rw [if_neg (h p (List.mem_cons_self p rest))]
    exact ih fun q hq => h q (List.mem_cons_of_mem p hq)

/-- Claim C10 (confirmed): for a tag outside the four tags the front
initialises, the nested lookup is total and misses (Go map indexing with
an absent key yields the zero value, never a panic), so both `SendPacket`
and `CloseConnection` return `ErrBadIndex` and leave the table, the
sockets and the trace untouched beyond lock/unlock. -/
theorem wfc_claim10_prop (table : ConnTable)
    (writeRes : Nat → List Nat → Option GoError) (closeRes : Nat → Option GoError)
    (tag : String) (index : Nat) (data : List Nat)
    (hwf : ∀ p ∈ table, p.1 ∈ frontendTags) (htag : tag ∉ frontendTags) :
    RPCFrontendPacket.SendPacket table writeRes tag index data =
        (some GoError.badIndex, table, [FEvent.lock, FEvent.unlock]) ∧
      RPCFrontendPacket.CloseConnection table closeRes tag index =
        (some GoError.badIndex, table, [FEvent.lock, FEvent.unlock]) := by
  have hmiss : mapGet2 table tag index = none := by
    have : assocGet table tag = none := by
      refine assocGet_eq_none table tag fun p hp => ?_
      intro hEq
      exact htag (hEq ▸ hwf p hp)
    simp [mapGet2, this]
  constructor
  · simp [RPCFrontendPacket.SendPacket, hmiss]
  · simp [RPCFrontendPacket.CloseConnection, hmiss]

/-- Claim C10, witness: the back addressing tag `natneg` (a UDP module,
never in the front table) gets `ErrBadIndex` from `SendPacket` with no
state change. -/
theorem wfc_claim10_witness :
    RPCFrontendPacket.SendPacket [("gpcm", [(1, 7)])] (fun _ _ => none) "natneg" 5 [1] =
      (some GoError.badIndex, [("gpcm", [(1, 7)])], [FEvent.lock, FEvent.unlock]) :=
  (wfc_claim10_prop [("gpcm", [(1, 7)])] (fun _ _ => none) (fun _ => none)
    "natneg" 5 [1] (by decide) (by decide)).1

/-! ## Claim C4: the ShutdownBackend handler -/

/-- Claim C4 (confirmed): `ShutdownBackend` locks the mutex and never
unlocks it, waits for the busy counter to drain, issues the `Shutdown`
RPC — swallowing an error whose message contains the "forcibly closed"
substring and logging any other error — then closes the outbound RPC
handle; it returns a nil error in every case. -/
theorem wfc_claim4_prop (sr cr : Option String) :
    (RPCFrontendPacket.ShutdownBackend sr cr).1 = none ∧
    SEvent.unlock ∉ (RPCFrontendPacket.ShutdownBackend sr cr).2 ∧
    (RPCFrontendPacket.ShutdownBackend none none).2 =
      [SEvent.lock, SEvent.busyWait, SEvent.rpcShutdown, SEvent.closeHandle,
       SEvent.spawnWaitForBackend] ∧
    (∀ m, strContains m forciblyClosedMsg = true →
      (RPCFrontendPacket.ShutdownBackend (some m) none).2 =
        [SEvent.lock, SEvent.busyWait, SEvent.rpcShutdown, SEvent.closeHandle,
         SEvent.spawnWaitForBackend]) ∧
    (∀ m, strContains m forciblyClosedMsg = false →
      (RPCFrontendPacket.ShutdownBackend (some m) none).2 =
        [SEvent.lock, SEvent.busyWait, SEvent.rpcShutdown, SEvent.logError,
         SEvent.closeHandle, SEvent.spawnWaitForBackend]) := by
  refine ⟨rfl, ?_, rfl, ?_, ?_⟩
  · rcases sr with _ | m <;> rcases cr with _ | m2 <;>
      simp [RPCFrontendPacket.ShutdownBackend]
  · intro m h
    simp [RPCFrontendPacket.ShutdownBackend, h]
  · intro m h
    simp [RPCFrontendPacket.ShutdownBackend, h]

/-- Claim C4, witness: the back dying before replying (the "forcibly
closed" message) is swallowed; the handler still closes the handle and
returns nil. -/
theorem wfc_claim4_witness :
    (RPCFrontendPacket.ShutdownBackend (some forciblyClosedMsg) none).2 =
      [SEvent.lock, SEvent.busyWait, SEvent.rpcShutdown, SEvent.closeHandle,
       SEvent.spawnWaitForBackend] :=
  (wfc_claim4_prop (some forciblyClosedMsg) none).2.2.2.1 forciblyClosedMsg (by decide)

/-! ## Claim C2: listener bind failures -/

/-- Claim C2, counterexample: the claim says a bind failure on any of the
four client-facing protocol listeners exits the process.  On the code,
`frontendListen` merely logs the error and returns from the goroutine
(main.go:301-305); the process keeps running. -/
theorem wfc_claim2_counterexample :
    frontendListen BindResult.err [] = [FLEvent.logError, FLEvent.ret] ∧
    FLEvent.exitProcess 1 ∉ frontendListen BindResult.err [] := by
  decide

/-- Claim C2 (amended): a bind failure on the back RPC listener
(`localhost:29999`) or on the front RPC listener (`localhost:29998`)
exits the process with failure; a bind failure on a client-facing
protocol listener is only logged, and that listener's goroutine returns
without exiting the process. -/
theorem wfc_claim2_prop (accepts : List AcceptStep) :
    backendMainListen BindResult.err = [FLEvent.logError, FLEvent.exitProcess 1] ∧
    startFrontendServerListen BindResult.err = [FLEvent.logError, FLEvent.exitProcess 1] ∧
    frontendListen BindResult.err accepts = [FLEvent.logError, FLEvent.ret] ∧
    (∀ c, FLEvent.exitProcess c ∉ frontendListen BindResult.err accepts) := by
  refine ⟨rfl, rfl, rfl, ?_⟩
  intro c
  simp [frontendListen]

/-- Claim C2, witness: the amended behaviour at a concrete accept
sequence. -/
theorem wfc_claim2_witness :
    FLEvent.exitProcess 1 ∉ frontendListen BindResult.err [AcceptStep.conn] :=
  (wfc_claim2_prop [AcceptStep.conn]).2.2.2 1

/-! ## Claim C9: HandlePacket payloads -/

/-- Every `HandlePacket` RPC the read loop issues carries a non-empty
payload, bounded by the buffer size whenever every read is, and equal to
the bytes of one of the successful reads. -/
lemma relayLoop_handlePacket (tag : String) (index : Nat) (addr : String)
    (steps : List ReadStep) (h : ∀ s ∈ steps, stepLen s ≤ 1024)
    (t : String) (i : Nat) (a : String) (d : List Nat)
    (hmem : Event.rpcHandlePacket t i a d ∈ (relayLoop tag index addr steps).1) :
    d ≠ [] ∧ d.length ≤ 1024 ∧ steps.any (stepHasData d) = true := by
  induction steps with
  | nil => simp [relayLoop] at hmem
  | cons s rest ih =>
    rcases s with _ | ⟨dd, r⟩
    · simp [relayLoop] at hmem
    · rcases dd with _ | ⟨b, bs⟩
      · -- zero-length read: the loop just continues
        simp only [relayLoop] at hmem
        have hrest := ih (fun s hs => h s (List.mem_cons_of_mem _ hs)) hmem
        exact ⟨hrest.1, hrest.2.1, by simp [List.any_cons, hrest.2.2]⟩
      · have hlen : (b :: bs).length ≤ 1024 := by
          have := h _ (List.mem_cons_self _ _)
          simpa [stepLen] using this
        rcases r with _ | e
        · simp only [relayLoop] at hmem
          rw [List.mem_append] at hmem
          rcases hmem with h1 | h1
          · simp only [List.mem_cons, List.not_mem_nil, or_false] at h1
            rcases h1 with h1 | h1 | h1 | h1 | h1
            · exact absurd h1 (by simp)
            · exact absurd h1 (by simp)
            · exact absurd h1 (by simp)
            · obtain ⟨ht, hi2, ha2, hd⟩ := by simpa using h1
              subst hd
              exact ⟨by simp, hlen, by simp [List.any_cons, stepHasData]⟩
            · exact absurd h1 (by simp)
          · have hrest := ih (fun s hs => h s (List.mem_cons_of_mem _ hs)) h1
            exact ⟨hrest.1, hrest.2.1, by simp [List.any_cons, hrest.2.2]⟩
        · rcases e <;>
          · simp [relayLoop] at hmem
            obtain ⟨ht, hi, ha2, hd⟩ := hmem
            subst hd
            exact ⟨by simp, hlen, by simp [List.any_cons, stepHasData]⟩

/-- Claim C9 (confirmed): every `HandlePacket` RPC issued by a relay task
carries a non-empty payload of at most 1024 bytes (given that each read
returns at most the 1024-byte buffer's worth) equal to the bytes just
read; a zero-length successful read issues no RPC and the loop simply
continues with the next read. -/
theorem wfc_claim9_prop (tag : String) (index : Nat) (addr : String) (conn : Nat)
    (newConnRes : Option RpcErr) (steps : List ReadStep) (closeRes : Option RpcErr)
    (h : ∀ s ∈ steps, stepLen s ≤ 1024) :
    (∀ (t : String) (i : Nat) (a : String) (d : List Nat),
      Event.rpcHandlePacket t i a d ∈
          handleConnection tag index addr conn newConnRes steps closeRes →
        d ≠ [] ∧ d.length ≤ 1024 ∧ steps.any (stepHasData d) = true) ∧
    (∀ (r : Option RpcErr) (rest : List ReadStep),
      relayLoop tag index addr (ReadStep.ok [] r :: rest) = relayLoop tag index addr rest) := by
  constructor
  · intro t i a d hmem
    have hloop : Event.rpcHandlePacket t i a d ∈ (relayLoop tag index addr steps).1 := by
      rcases newConnRes with _ | e
      · cases h2 : (relayLoop tag index addr steps).2 with
        | broke =>
          rcases closeRes with _ | e2
          · simp [handleConnection, h2] at hmem
            exact hmem
          · rcases e2 <;>
            · simp [handleConnection, h2] at hmem
              exact hmem
        | exited =>
          simp [handleConnection, h2] at hmem
          exact hmem
        | starved =>
          simp [handleConnection, h2] at hmem
          exact hmem
      · simp [handleConnection] at hmem
    exact relayLoop_handlePacket tag index addr steps h t i a d hloop
  · intro r rest
    rfl

/-- Claim C9, witness: a single 1-byte read is forwarded as a non-empty
payload equal to the read bytes. -/
theorem wfc_claim9_witness :
    [5] ≠ ([] : List Nat) ∧ ([5] : List Nat).length ≤ 1024 ∧
      ([ReadStep.ok [5] none] : List ReadStep).any (stepHasData [5]) = true :=
  (wfc_claim9_prop "gpcm" 1 "a" 7 none [ReadStep.ok [5] none] none (by decide)).1
    "gpcm" 1 "a" [5] (by decide)

/-! ## Claim C8: index assignment -/

/-- Wrapping increments compose into addition modulo `2 ^ 64`. -/
lemma iterInc_eq (k : Nat) : ∀ c : Nat, c < UINT64_MOD → iterInc c k = (c + k) % UINT64_MOD := by
  induction k with
  | zero =>
    intro c hc
    simp [iterInc, Nat.mod_eq_of_lt hc]
  | succ k ih =>
    intro c hc
    have hm : 0 < UINT64_MOD := by norm_num [UINT64_MOD]
    rw [iterInc, ih _ (Nat.mod_lt _ hm), Nat.mod_add_mod]
    have harith : c + 1 + k = c + (k + 1) := by omega
    rw [harith]

/-- The accept loop spawns one relay task per successful accept. -/
lemma assignedIndices_length (accepts : List AcceptStep) :
    ∀ c : Nat, (assignedIndices (acceptLoop c accepts)).length = numConns accepts := by
  induction accepts with
  | nil => intro c; rfl
  | cons s rest ih =>
    intro c
    rcases s
    · simpa [acceptLoop, assignedIndices, numConns] using ih c
    · simp only [acceptLoop, numConns]
      simp [assignedIndices, List.filterMap_cons] at ih ⊢
      exact ih _

/-- The index handed to the `i`-th spawned relay task (0-based) is the
counter after `i + 1` wrapping increments from the starting value. -/
lemma assignedIndices_get (accepts : List AcceptStep) :
    ∀ c i : Nat, i < numConns accepts →
      (assignedIndices (acceptLoop c accepts))[i]? = some (iterInc c (i + 1)) := by
  induction accepts with
  | nil =>
    intro c i hi
    simp [numConns] at hi
  | cons s rest ih =>
    intro c i hi
    rcases s
    · simpa [acceptLoop, assignedIndices] using ih c i hi
    · rcases i with _ | i
      · simp [acceptLoop, assignedIndices, iterInc]
      · have hi2 : i < numConns rest := by
          simpa [numConns] using hi
        simpa [acceptLoop, assignedIndices] using ih ((c + 1) % UINT64_MOD) i hi2

/-- Indices listed by the front listener come from the accept loop. -/
lemma assignedIndices_frontendListen (accepts : List AcceptStep) :
    assignedIndices (frontendListen BindResult.ok accepts)
      = assignedIndices (acceptLoop 0 accepts) := by
  simp [frontendListen, assignedIndices]

/-- Replicated successful accepts count themselves. -/
lemma numConns_replicate (n : Nat) : numConns (List.replicate n AcceptStep.conn) = n := by
  induction n with
  | zero => rfl
  | succ n ih => simp [List.replicate_succ, numConns, ih]

/-- Claim C8, counterexample: the claim says indices are strictly
monotonically increasing within a front lifetime, with no qualification.
The counter is a `uint64` and wraps (main.go:309-310, 326): after
`2 ^ 64` successful accepts on one tag the assigned index is `0`, smaller
than the very first index `1` — strict monotonicity fails at the wrap. -/
theorem wfc_claim8_counterexample :
    (assignedIndices (frontendListen BindResult.ok
        (List.replicate UINT64_MOD AcceptStep.conn)))[0]? = some 1 ∧
    (assignedIndices (frontendListen BindResult.ok
        (List.replicate UINT64_MOD AcceptStep.conn)))[UINT64_MOD - 1]? = some 0 ∧
    ¬ ((1 : Nat) < 0) := by
  have h0 : (0 : Nat) < UINT64_MOD := by norm_num [UINT64_MOD]
  have hnum : numConns (List.replicate UINT64_MOD AcceptStep.conn) = UINT64_MOD :=
    numConns_replicate _
  refine ⟨?_, ?_, by omega⟩
  · rw [assignedIndices_frontendListen,
      assignedIndices_get _ 0 0 (by rw [hnum]; exact h0),
      iterInc_eq 1 0 h0]
    norm_num [UINT64_MOD]
  · rw [assignedIndices_frontendListen,
      assignedIndices_get _ 0 (UINT64_MOD - 1) (by rw [hnum]; omega),
      iterInc_eq _ 0 h0]
    have harith : UINT64_MOD - 1 + 1 = UINT64_MOD := by omega
    rw [Nat.zero_add, harith, Nat.mod_self]

/-- Claim C8 (amended): as long as fewer than `2 ^ 64` connections have
been accepted on a tag's listener within a front lifetime, the indices
assigned to successively accepted connections are strictly monotonically
increasing and never repeat — and the counter never decrements, so
removing a connection from the table cannot make an index come back.
(At the `2 ^ 64`-th accept the `uint64` counter wraps.) -/
theorem wfc_claim8_prop (accepts : List AcceptStep) (i j a b : Nat)
    (hlen : numConns accepts < UINT64_MOD) (hij : i < j)
    (ha : (assignedIndices (frontendListen BindResult.ok accepts))[i]? = some a)
    (hb : (assignedIndices (frontendListen BindResult.ok accepts))[j]? = some b) :
    a < b ∧ a ≠ b := by
  rw [assignedIndices_frontendListen] at ha hb
  have h0 : (0 : Nat) < UINT64_MOD := by norm_num [UINT64_MOD]
  have hjlt : j < numConns accepts := by
    by_contra hge
    rw [List.getElem?_eq_none] at hb
    · exact Option.noConfusion hb
    · rw [assignedIndices_length accepts 0]
      omega
  have hilt : i < numConns accepts := lt_trans hij hjlt
  rw [assignedIndices_get accepts 0 i hilt, iterInc_eq (i + 1) 0 h0] at ha
  rw [assignedIndices_get accepts 0 j hjlt, iterInc_eq (j + 1) 0 h0] at hb
  have hA : a = i + 1 := by
    have h1 : (0 + (i + 1)) % UINT64_MOD = i + 1 := by
      rw [Nat.zero_add]
      exact Nat.mod_eq_of_lt (by omega)
    rw [h1] at ha
    exact (Option.some.inj ha).symm
  have hB : b = j + 1 := by
    have h1 : (0 + (j + 1)) % UINT64_MOD = j + 1 := by
      rw [Nat.zero_add]
      exact Nat.mod_eq_of_lt (by omega)
    rw [h1] at hb
    exact (Option.some.inj hb).symm
  omega

/-- Claim C8, witness: two successive accepts get the increasing,
distinct indices 1 and 2. -/
theorem wfc_claim8_witness :
    (assignedIndices (frontendListen BindResult.ok
        [AcceptStep.conn, AcceptStep.conn]))[0]? = some 1 ∧
    (assignedIndices (frontendListen BindResult.ok
        [AcceptStep.conn, AcceptStep.conn]))[1]? = some 2 ∧
    (1 : Nat) < 2 ∧ (1 : Nat) ≠ 2 := by
  refine ⟨by decide, by decide, ?_⟩
  exact wfc_claim8_prop [AcceptStep.conn, AcceptStep.conn] 0 1 1 2
    (by decide) (by decide) (by decide) (by decide)

end WfcMain
